import Mathlib

/-!
Verification development for the SmartStep AI foot-analysis client.

The definitions below are a shallow embedding of the capture-and-tagging
logic and the analysis request contract of the repository:

* `handleFiles`, `removeImage`, `handleTag` embed the manual upload and
  tagging operations of `src/components/ImageUploader.tsx`;
* `handleCapture`, `handleReset`, `stopStream` embed the guided live-scan
  state machine of `src/components/LiveScanner.tsx`;
* `analyzeFootImage` embeds the AI service call of
  `src/services/geminiService.ts`;
* `formatPotentialIssues` and `analysisSummaryForEmail` embed the
  consultation message rendering of `src/components/TelemedicineModal.tsx`.

Browser effects (random identifiers, object URLs, base64 encoding, the
remote model, JSON parsing) are passed in as explicit function parameters,
so that every definition stays executable and the control flow of the
source is preserved verbatim.
-/

namespace SmartStep

/-- The three anatomical view slots (`ViewKey` in the source). -/
inductive ViewKey : Type
  | top
  | side
  | back
deriving DecidableEq, Repr

/-- A record with one optional value per view slot.  It models the various
`Record<ViewKey, T | null>` objects of the source. -/
structure Slots (α : Type) where
  top : Option α
  side : Option α
  back : Option α
deriving DecidableEq, Repr

namespace Slots

variable {α : Type}

/-- Look up the value held by one slot. -/
def get (s : Slots α) : ViewKey → Option α
  | .top => s.top
  | .side => s.side
  | .back => s.back

/-- Replace the value held by one slot. -/
def set (s : Slots α) (v : ViewKey) (x : Option α) : Slots α :=
  match v with
  | .top => { s with top := x }
  | .side => { s with side := x }
  | .back => { s with back := x }

/-- The record with every slot empty. -/
def empty : Slots α := ⟨none, none, none⟩

@[simp]
theorem get_set (s : Slots α) (v w : ViewKey) (x : Option α) :
    (s.set v x).get w = if w = v then x else s.get w := by
  cases v <;> cases w <;> simp [get, set]

@[simp]
theorem get_empty (v : ViewKey) : (empty : Slots α).get v = none := by
  cases v <;> rfl

end Slots

/-- A browser `File` as far as the embedded logic inspects it: a name, a
last-modified stamp and a MIME type string. -/
structure MFile where
  name : String
  lastModified : Nat
  mime : String
deriving DecidableEq, Repr

/-- The MIME prefix accepted by the upload filter. -/
def imageMimeHead : String := "image/"

/-- The filter `file.type.startsWith(&#x27;image/&#x27;)` used by `handleFiles`,
written as a structural prefix test on the character sequence so that it
evaluates inside the kernel. -/
def MFile.isImage (f : MFile) : Bool := imageMimeHead.data.isPrefixOf f.mime.data

/-- An uploaded image of `ImageUploader.tsx`: an opaque identifier, the raw
file and a renderable preview handle. -/
structure ImageFile where
  id : String
  file : MFile
  preview : String
deriving DecidableEq, Repr

/-- The state owned by the manual upload component: the `imageFiles` list and
the `tags` map from view slots to image identifiers. -/
structure UploaderState where
  imageFiles : List ImageFile
  tags : Slots String
deriving DecidableEq, Repr

/-- The initial state of the upload component: no images, no tags. -/
def UploaderState.init : UploaderState := ⟨[], Slots.empty⟩

/-- Separator used when building a fresh image identifier. -/
def idSep : String := "-"

/-- The identifier template of `handleFiles`, with the `Math.random()` draw
supplied as an argument. -/
def mkImageId (f : MFile) (rnd : String) : String :=
  f.name ++ idSep ++ toString f.lastModified ++ idSep ++ rnd

/-- `handleFiles` from `ImageUploader.tsx`: keep only files with an image
MIME type, truncate to the free capacity out of a 3-image cap, and append
each survivor as a new `ImageFile`.  `rand` models the `Math.random()` draw
for each accepted file and `url` models `URL.createObjectURL`. -/
def handleFiles (s : UploaderState) (files : List MFile)
    (rand : Nat → String) (url : MFile → String) : UploaderState :=
  let newFiles : List ImageFile :=
    ((files.filter (fun f => f.isImage)).take (3 - s.imageFiles.length)).enum.map
      (fun p => { id := mkImageId p.2 (rand p.1), file := p.2, preview := url p.2 })
  { s with imageFiles := s.imageFiles ++ newFiles }

/-- The loop inside `removeImage`/`handleTag` that nulls out every slot
currently holding a given identifier. -/
def clearId (t : Slots String) (i : String) : Slots String :=
  ⟨if t.top = some i then none else t.top,
   if t.side = some i then none else t.side,
   if t.back = some i then none else t.back⟩

/-- `removeImage` from `ImageUploader.tsx`: drop the image with the given
identifier and clear every tag that referenced it. -/
def removeImage (s : UploaderState) (idToRemove : String) : UploaderState :=
  { imageFiles := s.imageFiles.filter (fun img => img.id != idToRemove),
    tags := clearId s.tags idToRemove }

/-- `handleTag` from `ImageUploader.tsx`: toggle semantics.  If the slot
already maps to this image the slot is untagged; otherwise the identifier is
cleared from every slot and then assigned to the requested slot. -/
def handleTag (s : UploaderState) (imageId : String) (viewKey : ViewKey) :
    UploaderState :=
  { s with tags :=
      if s.tags.get viewKey = some imageId then
        s.tags.set viewKey none
      else
        (clearId s.tags imageId).set viewKey (some imageId) }

@[simp]
theorem clearId_get (t : Slots String) (i : String) (v : ViewKey) :
    (clearId t i).get v = if t.get v = some i then none else t.get v := by
  cases v <;> simp [clearId, Slots.get]

/-- Membership of an identifier in the current image collection. -/
def HasImage (s : UploaderState) (i : String) : Prop :=
  ∃ img ∈ s.imageFiles, img.id = i

/-- States reachable by the operation sequences the upload UI can perform:
any `handleFiles` call, any `removeImage` call, and `handleTag` calls for an
image currently shown (the tag buttons exist only on rendered thumbnails of
the current collection). -/
inductive Reachable : UploaderState → Prop
  | init : Reachable UploaderState.init
  | add (s : UploaderState) (files : List MFile) (rand : Nat → String)
      (url : MFile → String) : Reachable s → Reachable (handleFiles s files rand url)
  | remove (s : UploaderState) (i : String) :
      Reachable s → Reachable (removeImage s i)
  | tag (s : UploaderState) (i : String) (v : ViewKey) :
      Reachable s → HasImage s i → Reachable (handleTag s i v)

/-- The SlotTagMap invariant of the specification: no identifier sits in two
distinct slots, and every tagged identifier belongs to the collection. -/
def TagInv (s : UploaderState) : Prop :=
  (∀ v w i, s.tags.get v = some i → s.tags.get w = some i → v = w) ∧
  (∀ v i, s.tags.get v = some i → HasImage s i)

theorem handleFiles_tags (s : UploaderState) (files : List MFile)
    (rand : Nat → String) (url : MFile → String) :
    (handleFiles s files rand url).tags = s.tags := rfl

theorem handleFiles_imageFiles_eq (s : UploaderState) (files : List MFile)
    (rand : Nat → String) (url : MFile → String) :
    (handleFiles s files rand url).imageFiles
      = s.imageFiles
        ++ ((files.filter (fun f => f.isImage)).take (3 - s.imageFiles.length)).enum.map
            (fun p => { id := mkImageId p.2 (rand p.1), file := p.2, preview := url p.2 }) := rfl

theorem removeImage_tags (s : UploaderState) (i : String) :
    (removeImage s i).tags = clearId s.tags i := rfl

theorem removeImage_imageFiles (s : UploaderState) (i : String) :
    (removeImage s i).imageFiles = s.imageFiles.filter (fun img => img.id != i) := rfl

theorem handleTag_tags (s : UploaderState) (i : String) (v : ViewKey) :
    (handleTag s i v).tags
      = if s.tags.get v = some i then s.tags.set v none
        else (clearId s.tags i).set v (some i) := rfl

theorem hasImage_handleTag {s : UploaderState} {i j : String} {v : ViewKey}
    (h : HasImage s j) : HasImage (handleTag s i v) j := h

/-- C1: along every UI-reachable sequence of addFiles, removeImage and
tagImage operations starting from the empty state, the SlotTagMap never maps
two distinct slots to the same image identity, and never maps a slot to an
identity absent from the current CandidateImage collection. -/
theorem slotTagMap_invariant (s : UploaderState) (h : Reachable s) : TagInv s := by
  induction h with
  | init =>
      constructor
      · intro v w i hv _
        simp [UploaderState.init] at hv
      · intro v i hv
        simp [UploaderState.init] at hv
  | add s files rand url _ ih =>
      obtain ⟨inj, dom⟩ := ih
      constructor
      · intro v w i hv hw
        rw [handleFiles_tags] at hv hw
        exact inj v w i hv hw
      · intro v i hv
        rw [handleFiles_tags] at hv
        obtain ⟨img, hmem, hid⟩ := dom v i hv
        refine ⟨img, ?_, hid⟩
        rw [handleFiles_imageFiles_eq]
        exact List.mem_append_left _ hmem
  | remove s i _ ih =>
      obtain ⟨inj, dom⟩ := ih
      constructor
      · intro v w j hv hw
        rw [removeImage_tags, clearId_get] at hv hw
        by_cases h1 : s.tags.get v = some i
        · simp [h1] at hv
        · simp [h1] at hv
          by_cases h2 : s.tags.get w = some i
          · simp [h2] at hw
          · simp [h2] at hw
            exact inj v w j hv hw
      · intro v j hv
        rw [removeImage_tags, clearId_get] at hv
        by_cases h1 : s.tags.get v = some i
        · simp [h1] at hv
        · simp [h1] at hv
          obtain ⟨img, hmem, hid⟩ := dom v j hv
          refine ⟨img, ?_, hid⟩
          rw [removeImage_imageFiles, List.mem_filter]
          refine ⟨hmem, ?_⟩
          have hji : j ≠ i := fun e => h1 (e ▸ hv)
          simp only [bne_iff_ne, ne_eq, hid]
          exact hji
  | tag s i v _ hHas ih =>
      obtain ⟨inj, dom⟩ := ih
      by_cases hc : s.tags.get v = some i
      · constructor
        · intro x y j hx hy
          rw [handleTag_tags, if_pos hc, Slots.get_set] at hx hy
          by_cases hxv : x = v
          · simp [hxv] at hx
          · simp [hxv] at hx
            by_cases hyv : y = v
            · simp [hyv] at hy
            · simp [hyv] at hy
              exact inj x y j hx hy
        · intro x j hx
          rw [handleTag_tags, if_pos hc, Slots.get_set] at hx
          by_cases hxv : x = v
          · simp [hxv] at hx
          · simp [hxv] at hx
            exact hasImage_handleTag (dom x j hx)
      · constructor
        · intro x y j hx hy
          rw [handleTag_tags, if_neg hc, Slots.get_set] at hx hy
          by_cases hxv : x = v
          · by_cases hyv : y = v
            · rw [hxv, hyv]
            · simp [hxv] at hx
              simp [hyv, clearId_get] at hy
              by_cases h2 : s.tags.get y = some i
              · simp [h2] at hy
              · simp [h2] at hy
                exact absurd (hx ▸ hy) h2
          · by_cases hyv : y = v
            · simp [hyv] at hy
              simp [hxv, clearId_get] at hx
              by_cases h2 : s.tags.get x = some i
              · simp [h2] at hx
              · simp [h2] at hx
                exact absurd (hy ▸ hx) h2
            · simp [hxv, clearId_get] at hx
              simp [hyv, clearId_get] at hy
              by_cases h2 : s.tags.get x = some i
              · simp [h2] at hx
              · simp [h2] at hx
                by_cases h3 : s.tags.get y = some i
                · simp [h3] at hy
                · simp [h3] at hy
                  exact inj x y j hx hy
        · intro x j hx
          rw [handleTag_tags, if_neg hc, Slots.get_set] at hx
          by_cases hxv : x = v
          · simp [hxv] at hx
            cases hx
            exact hasImage_handleTag hHas
          · simp [hxv, clearId_get] at hx
            by_cases h2 : s.tags.get x = some i
            · simp [h2] at hx
            · simp [h2] at hx
              exact hasImage_handleTag (dom x j hx)

theorem snd_mem_of_mem_enum {α : Type} {l : List α} {p : Nat × α}
    (h : p ∈ l.enum) : p.2 ∈ l :=
  List.get?_mem (List.mem_enum_iff_get?.mp h)

/-- C7: along every UI-reachable operation sequence the CandidateImage
collection holds at most 3 images, and every image it holds passed the image
MIME-type filter; surplus files and non-image files simply never enter the
collection. -/
theorem upload_cap_and_mime (s : UploaderState) (h : Reachable s) :
    s.imageFiles.length ≤ 3 ∧ ∀ img ∈ s.imageFiles, img.file.isImage = true := by
  induction h with
  | init =>
      refine ⟨by simp [UploaderState.init], ?_⟩
      intro img hmem
      simp [UploaderState.init] at hmem
  | add s files rand url _ ih =>
      obtain ⟨hlen, hmime⟩ := ih
      constructor
      · rw [handleFiles_imageFiles_eq, List.length_append, List.length_map,
          List.enum_length, List.length_take]
        have hmin := Nat.min_le_left (3 - s.imageFiles.length)
          ((files.filter (fun f => f.isImage)).length)
        omega
      · intro img hmem
        rw [handleFiles_imageFiles_eq, List.mem_append] at hmem
        rcases hmem with hm | hm
        · exact hmime img hm
        · rw [List.mem_map] at hm
          obtain ⟨p, hp, rfl⟩ := hm
          have h2 : p.2 ∈ (files.filter (fun f => f.isImage)).take
              (3 - s.imageFiles.length) := snd_mem_of_mem_enum hp
          have h3 : p.2 ∈ files.filter (fun f => f.isImage) :=
            List.mem_of_mem_take h2
          exact (List.mem_filter.mp h3).2
  | remove s i _ ih =>
      obtain ⟨hlen, hmime⟩ := ih
      constructor
      · rw [removeImage_imageFiles]
        exact le_trans (List.length_filter_le _ _) hlen
      · intro img hmem
        rw [removeImage_imageFiles, List.mem_filter] at hmem
        exact hmime img hmem.1
  | tag s i v _ _ ih =>
      exact ih

/-- A small image file used to build concrete witness states. -/
def wFileA : MFile := ⟨"a", 0, "image/png"⟩

/-- A second image file used to build concrete witness states. -/
def wFileB : MFile := ⟨"b", 1, "image/jpeg"⟩

/-- A non-image file used to build concrete witness states. -/
def wFileBad : MFile := ⟨"c", 2, "text/plain"⟩

/-- A deterministic stand-in for the Math.random draws of a witness run. -/
def wRand : Nat → String := fun n => toString n

/-- A deterministic stand-in for URL.createObjectURL in a witness run. -/
def wUrl : MFile → String := fun f => f.name

/-- The state after one addFiles call with two images and one text file. -/
def wState1 : UploaderState :=
  handleFiles UploaderState.init [wFileA, wFileB, wFileBad] wRand wUrl

/-- The identifier generated for `wFileA` in the witness run. -/
def wIdA : String := mkImageId wFileA (wRand 0)

/-- The witness state after additionally tagging `wFileA` as the top view. -/
def wState2 : UploaderState := handleTag wState1 wIdA ViewKey.top

theorem slotTagMap_invariant_witness : TagInv wState2 :=
  slotTagMap_invariant wState2
    (Reachable.tag wState1 wIdA ViewKey.top
      (Reachable.add UploaderState.init [wFileA, wFileB, wFileBad] wRand wUrl
        Reachable.init)
      ⟨{ id := wIdA, file := wFileA, preview := wUrl wFileA }, by decide, rfl⟩)

/-- Five files, three of them images, for the capacity witness. -/
def wManyFiles : List MFile :=
  [wFileA, wFileB, wFileBad, ⟨"d", 3, "image/webp"⟩, ⟨"e", 4, "image/png"⟩]

/-- The state after one addFiles call with five files at once. -/
def wState3 : UploaderState := handleFiles UploaderState.init wManyFiles wRand wUrl

theorem upload_cap_and_mime_witness :
    wState3.imageFiles.length ≤ 3 ∧
      ∀ img ∈ wState3.imageFiles, img.file.isImage = true :=
  upload_cap_and_mime wState3
    (Reachable.add UploaderState.init wManyFiles wRand wUrl Reachable.init)

/-- C8 counterexample: in a reachable state whose top slot already maps to
the image, two successive identical tagImage calls untag and then re-tag the
slot, so it ends assigned, not unassigned as the claim states. -/
theorem tagImage_double_retag_cex :
    wState2.tags.get ViewKey.top = some wIdA ∧
      (handleTag (handleTag wState2 wIdA ViewKey.top) wIdA
          ViewKey.top).tags.get ViewKey.top = some wIdA := by
  decide

/-- C8 amended: whenever the slot does not already map to the given image
identifier, applying tagImage twice with the same arguments returns the slot
to unassigned (the second call undoes the first). -/
theorem tagImage_double_untags (s : UploaderState) (i : String) (v : ViewKey)
    (h : s.tags.get v ≠ some i) :
    (handleTag (handleTag s i v) i v).tags.get v = none := by
  have h1 : (handleTag s i v).tags.get v = some i := by
    rw [handleTag_tags, if_neg h, Slots.get_set]
    simp
  rw [handleTag_tags, if_pos h1, Slots.get_set]
  simp

theorem tagImage_double_untags_witness :
    (handleTag (handleTag wState1 wIdA ViewKey.top) wIdA
        ViewKey.top).tags.get ViewKey.top = none :=
  tagImage_double_untags wState1 wIdA ViewKey.top (by decide)

/-! ### Guided live scan (`src/components/LiveScanner.tsx`) -/

/-- The live-scan phase (`Step` in the source): idle, capturing one of the
three views, done, or camera error. -/
inductive Step : Type
  | idle
  | capturing (v : ViewKey)
  | done
  | error
deriving DecidableEq, Repr

/-- One track of the camera media stream, identified by a number. -/
abbrev Track := Nat

/-- A captured camera frame as handed to `canvas.toBlob`: MIME type plus
opaque content. -/
structure MBlob where
  mime : String
  content : String
deriving DecidableEq, Repr

/-- `blobToFile` from `LiveScanner.tsx`; `now` stands for `Date.now()`. -/
def blobToFile (theBlob : MBlob) (fileName : String) (now : Nat) : MFile :=
  { name := fileName, lastModified := now, mime := theBlob.mime }

/-- The state owned by the live-scan component: current step, the optional
camera stream with its tracks, the preview URLs and the captured files. -/
structure ScannerState where
  step : Step
  stream : Option (List Track)
  previews : Slots String
  files : Slots MFile
deriving DecidableEq, Repr

/-- `stopStream` from `LiveScanner.tsx`: if a stream is held, stop each of
its tracks and drop the handle.  The second component lists the tracks on
which `stop()` was called. -/
def stopStream (s : ScannerState) : ScannerState × List Track :=
  match s.stream with
  | some ts => ({ s with stream := none }, ts)
  | none => (s, [])

/-- The string name of a view, as interpolated into the capture filename. -/
def viewName : ViewKey → String
  | .top => "top"
  | .side => "side"
  | .back => "back"

/-- The fixed capture order (`nextStepOrder` in the source). -/
def nextStepOrder : List ViewKey := [ViewKey.top, ViewKey.side, ViewKey.back]

/-- Filename suffix used for captured frames. -/
def captureSuffix : String := "_capture.jpg"

/-- `handleCapture` from `LiveScanner.tsx`.  `videoW`/`videoH` are the
current video frame dimensions, `blob` is the result `canvas.toBlob`
delivers (none when encoding fails), `url` models `URL.createObjectURL` and
`now` models `Date.now()`.  The second component lists the tracks stopped
during the call. -/
def handleCapture (s : ScannerState) (videoW videoH : Nat) (blob : Option MBlob)
    (url : MBlob → String) (now : Nat) : ScannerState × List Track :=
  match s.step with
  | .idle => (s, [])
  | .done => (s, [])
  | .error => (s, [])
  | .capturing currentStep =>
    if videoW = 0 ∨ videoH = 0 then (s, [])
    else
      match blob with
      | none => (s, [])
      | some b =>
        let file := blobToFile b (viewName currentStep ++ captureSuffix) now
        let s1 := { s with
          previews := s.previews.set currentStep (some (url b)),
          files := s.files.set currentStep (some file) }
        let currentIndex := nextStepOrder.indexOf currentStep
        if currentIndex < nextStepOrder.length - 1 then
          ({ s1 with step := .capturing (nextStepOrder.getD (currentIndex + 1) currentStep) }, [])
        else
          stopStream { s1 with step := .done }

/-- `handleReset` from `LiveScanner.tsx`: stop the stream, return to idle and
clear every preview and captured file.  The second component lists the
tracks stopped during the call. -/
def handleReset (s : ScannerState) : ScannerState × List Track :=
  let p := stopStream s
  ({ p.1 with step := .idle, previews := Slots.empty, files := Slots.empty }, p.2)

/-- The phase reached after a successful capture in phase `v`, per the fixed
order top, side, back, done. -/
def stepAfter : ViewKey → Step
  | .top => .capturing .side
  | .side => .capturing .back
  | .back => .done

theorem stopStream_fst_step (s : ScannerState) : (stopStream s).1.step = s.step := by
  cases h : s.stream <;> simp [stopStream, h]

theorem stopStream_fst_files (s : ScannerState) : (stopStream s).1.files = s.files := by
  cases h : s.stream <;> simp [stopStream, h]

theorem stopStream_fst_previews (s : ScannerState) :
    (stopStream s).1.previews = s.previews := by
  cases h : s.stream <;> simp [stopStream, h]

theorem stopStream_fst_stream (s : ScannerState) : (stopStream s).1.stream = none := by
  cases h : s.stream <;> simp [stopStream, h]

theorem stopStream_snd (s : ScannerState) : (stopStream s).2 = s.stream.getD [] := by
  cases h : s.stream <;> simp [stopStream, h]

/-- C2: a capture taken in phase `v` with a ready video frame records the
image exactly in slot `v`, leaves every other slot untouched, and advances
the phase to its unique successor in the order top, side, back, done;
captures attempted outside a capturing phase, or before the video frame has
nonzero dimensions, change nothing. -/
theorem capture_current_phase_and_order :
    (∀ (s : ScannerState) (v : ViewKey) (w h : Nat) (b : MBlob)
        (url : MBlob → String) (now : Nat),
      s.step = Step.capturing v → w ≠ 0 → h ≠ 0 →
        (handleCapture s w h (some b) url now).1.files.get v
            = some (blobToFile b (viewName v ++ captureSuffix) now) ∧
          (∀ u, u ≠ v →
            (handleCapture s w h (some b) url now).1.files.get u = s.files.get u) ∧
          (handleCapture s w h (some b) url now).1.step = stepAfter v) ∧
    (∀ (s : ScannerState) (w h : Nat) (b : Option MBlob) (url : MBlob → String)
        (now : Nat),
      s.step = Step.idle ∨ s.step = Step.done ∨ s.step = Step.error →
        handleCapture s w h b url now = (s, [])) ∧
    (∀ (s : ScannerState) (v : ViewKey) (w h : Nat) (b : Option MBlob)
        (url : MBlob → String) (now : Nat),
      s.step = Step.capturing v → (w = 0 ∨ h = 0) →
        handleCapture s w h b url now = (s, [])) := by
  refine ⟨?_, ?_, ?_⟩
  · intro s v w h b url now hv hw hh
    obtain ⟨st, str, pv, fl⟩ := s
    simp only at hv
    subst hv
    have hcond : ¬ (w = 0 ∨ h = 0) := by
      rintro (rfl | rfl)
      · exact hw rfl
      · exact hh rfl
    refine ⟨?_, ?_, ?_⟩
    · cases v <;>
        simp [handleCapture, hcond, nextStepOrder, stopStream_fst_files,
          Slots.get_set]
    · intro u hu
      cases v <;>
        simp [handleCapture, hcond, nextStepOrder, stopStream_fst_files,
          Slots.get_set, hu]
    · cases v <;>
        simp [handleCapture, hcond, nextStepOrder, stopStream_fst_step, stepAfter]
  · intro s w h b url now hs
    rcases hs with hs | hs | hs <;>
      · obtain ⟨st, str, pv, fl⟩ := s
        simp only at hs
        subst hs
        rfl
  · intro s v w h b url now hv hwh
    obtain ⟨st, str, pv, fl⟩ := s
    simp only at hv
    subst hv
    simp [handleCapture, hwh]

/-- A capture frame used in concrete witness runs. -/
def wBlob : MBlob := ⟨"image/jpeg", "frame"⟩

/-- A live-scan state in the top capturing phase holding a two-track
stream. -/
def wScan : ScannerState :=
  { step := Step.capturing ViewKey.top, stream := some [0, 1],
    previews := Slots.empty, files := Slots.empty }

theorem capture_current_phase_and_order_witness :
    (handleCapture wScan 2 2 (some wBlob) (fun b => b.content) 7).1.step
        = stepAfter ViewKey.top ∧
      (handleCapture wScan 2 2 (some wBlob) (fun b => b.content) 7).1.files.get
          ViewKey.top
        = some (blobToFile wBlob (viewName ViewKey.top ++ captureSuffix) 7) :=
  ⟨(capture_current_phase_and_order.1 wScan ViewKey.top 2 2 wBlob
      (fun b => b.content) 7 rfl (by decide) (by decide)).2.2,
   (capture_current_phase_and_order.1 wScan ViewKey.top 2 2 wBlob
      (fun b => b.content) 7 rfl (by decide) (by decide)).1⟩

/-- C6: resetting from any state returns the machine to idle, clears all
three captured files and previews, drops the stream handle, and calls stop
on every track of the stream that was held. -/
theorem reset_clears_slots_and_releases_stream (s : ScannerState) :
    (handleReset s).1.step = Step.idle ∧
      (handleReset s).1.files = Slots.empty ∧
      (handleReset s).1.previews = Slots.empty ∧
      (handleReset s).1.stream = none ∧
      (handleReset s).2 = s.stream.getD [] := by
  refine ⟨rfl, rfl, rfl, ?_, ?_⟩
  · show (stopStream s).1.stream = none
    exact stopStream_fst_stream s
  · show (stopStream s).2 = s.stream.getD []
    exact stopStream_snd s

/-- The state the scanner is left in after a camera acquisition failure:
the error step with no stream handle. -/
def errState : ScannerState :=
  { step := Step.error, stream := none, previews := Slots.empty,
    files := Slots.empty }

/-- C5 counterexample: the retry action in the error state runs the reset
handler, which moves the machine to idle, not to capturing(top), and does
not acquire a camera stream. -/
theorem retry_from_error_not_capturing_cex :
    errState.step = Step.error ∧
      (handleReset errState).1.step ≠ Step.capturing ViewKey.top ∧
      (handleReset errState).1.step = Step.idle ∧
      (handleReset errState).1.stream = none := by
  decide

/-- C5 amended: from the error state the retry action transitions the
machine to idle with all slots cleared and no stream held; camera
acquisition is re-attempted only by the subsequent start action. -/
theorem retry_from_error_resets_to_idle (s : ScannerState)
    (h : s.step = Step.error) :
    (handleReset s).1.step = Step.idle ∧
      (handleReset s).1.stream = none ∧
      (handleReset s).1.files = Slots.empty ∧
      (handleReset s).1.previews = Slots.empty := by
  refine ⟨rfl, ?_, rfl, rfl⟩
  show (stopStream s).1.stream = none
  exact stopStream_fst_stream s

theorem retry_from_error_resets_to_idle_witness :
    (handleReset errState).1.step = Step.idle ∧
      (handleReset errState).1.stream = none ∧
      (handleReset errState).1.files = Slots.empty ∧
      (handleReset errState).1.previews = Slots.empty :=
  retry_from_error_resets_to_idle errState rfl

/-! ### Analysis request (`src/services/geminiService.ts`) -/

/-- The `FootImages` argument of `analyzeFootImage`: an optional file per
view. -/
structure FootImages where
  top : Option MFile
  side : Option MFile
  back : Option MFile
deriving DecidableEq, Repr

/-- The view-name keys of a `FootImages` object whose value is set, in the
key order top, side, back established by the caller. -/
def providedViews (i : FootImages) : List String :=
  (if i.top.isSome then [viewName ViewKey.top] else [])
    ++ (if i.side.isSome then [viewName ViewKey.side] else [])
    ++ (if i.back.isSome then [viewName ViewKey.back] else [])

/-- One part of the multi-part request body: either instruction text or an
inline base64-encoded image with its MIME type. -/
inductive GenPart : Type
  | text (t : String)
  | inlineData (data : String) (mimeType : String)
deriving DecidableEq, Repr

/-- The request sent to `ai.models.generateContent`: the model name and the
ordered content parts.  The response schema declaration is a fixed literal
in the source and is carried by the `parse` collaborator below. -/
structure GenAIRequest where
  model : String
  parts : List GenPart
deriving DecidableEq, Repr

/-- The model name used by the service. -/
def geminiModelName : String := "gemini-2.5-flash"

/-- JavaScript `join` on an array of strings. -/
def joinWith (sep : String) : List String → String
  | [] => ""
  | [x] => x
  | x :: y :: xs => x ++ sep ++ joinWith sep (y :: xs)

/-- The instruction text up to the interpolated list of provided views. -/
def promptHead : String :=
  "You are a world-class AI podiatry assistant called SmartStep. Your task is to perform a detailed analysis of a human foot from a set of images. These images were taken while the user was standing to capture the foot\x27s shape under natural weight-bearing conditions.\n\nYou have been provided with the following views: "

/-- The instruction text after the interpolated list of provided views. -/
def promptTail : String :=
  ". Your analysis will be limited by any missing views. Perform the most thorough analysis possible with the available images and clearly state any limitations in your summary. If a specific view required for a task (e.g., side view for arch type) is missing, state the result as \x27Unknown\x27 and explain why.\n\n- Use the **Side View** (if available) to primarily determine the foot arch type.\n- Use the **Top View** (if available) to identify issues like bunions, hammertoes, or toe alignment.\n- Use the **Back View** (if available) to assess heel alignment (e.g., pronation or supination).\n\nProvide a comprehensive analysis covering the following points:\n1.  **Foot Arch Type**: Determine if the arch is normal, flat (pes planus), or high (pes cavus).\n2.  **Potential Deformities/Issues**: Identify any visible signs of common foot conditions. For each issue, provide:\n    a. The name of the issue.\n    b. An estimated severity level (Mild, Moderate, Severe, or Unknown).\n    c. A brief description of the finding and which view it was most apparent in.\n3.  **Overall Summary**: A concise summary of your findings, written in clear, easy-to-understand language.\n4.  **Clinical Recommendations**: A list of 2-3 potential clinical recommendations for a healthcare professional.\n5.  **Footwear Suggestions**: A list of 2-3 specific types of footwear or shoe features that would be beneficial.\n6.  **Confidence Score**: An overall confidence score (0-100) for this analysis. Base this score on the quality of the images AND the number of views provided (more views should generally lead to higher confidence).\n\nIMPORTANT: Your response must be in a clean JSON format. Do not include any markdown formatting or explanations outside of the JSON structure."

/-- The full `initialPrompt` of the service, with the provided view names
joined by a comma as in the source. -/
def initialPrompt (i : FootImages) : String :=
  promptHead ++ joinWith ", " (providedViews i) ++ promptTail

/-- The label preceding the top-view image part. -/
def topLabel : String := "Top View of the foot:"

/-- The label preceding the side-view image part. -/
def sideLabel : String := "Side View (Arch) of the foot:"

/-- The label preceding the back-view image part. -/
def backLabel : String := "Back View (Heel) of the foot:"

/-- The labelled image parts built for each populated slot, in source order;
`b64` models `fileToGenerativePart` (base64 encoding of the file). -/
def imageParts (b64 : MFile → String) (i : FootImages) : List GenPart :=
  (match i.top with
    | some f => [GenPart.text topLabel, GenPart.inlineData (b64 f) f.mime]
    | none => [])
  ++ (match i.side with
    | some f => [GenPart.text sideLabel, GenPart.inlineData (b64 f) f.mime]
    | none => [])
  ++ (match i.back with
    | some f => [GenPart.text backLabel, GenPart.inlineData (b64 f) f.mime]
    | none => [])

/-- A potential issue of an `AnalysisResult`.  The values originate from an
unvalidated `JSON.parse` cast, so the fields are modelled as raw strings. -/
structure PotentialIssue where
  issue : String
  severity : String
  description : String
deriving DecidableEq, Repr

/-- The structured analysis result.  String enumerations and the numeric
score come from an unvalidated `JSON.parse` cast, so they are modelled as
raw strings and an integer. -/
structure AnalysisResult where
  archType : String
  potentialIssues : List PotentialIssue
  summary : String
  clinicalRecommendations : List String
  footwearSuggestions : List String
  confidenceScore : Int
deriving DecidableEq, Repr

/-- The local input-validation message thrown when no view is populated. -/
def noImagesMsg : String := "No images were provided for analysis."

/-- The single generic message produced by the catch-all handler. -/
def genericFailureMsg : String :=
  "Failed to analyze the image. The AI model may be unavailable or the image could not be processed."

/-- The body of the `try` block of `analyzeFootImage`: validate, build the
request, call the remote model and parse the response.  `remote` models
`generateContent` (returning the response text or a transport error) and
`parse` models `JSON.parse` against the declared schema.  The second
component counts how many times the remote collaborator was invoked. -/
def analyzeFootImageTry (remote : GenAIRequest → Except String String)
    (parse : String → Except String AnalysisResult) (b64 : MFile → String)
    (imageFiles : FootImages) : Except String AnalysisResult × Nat :=
  if (providedViews imageFiles).length = 0 then
    (Except.error noImagesMsg, 0)
  else
    let req : GenAIRequest :=
      { model := geminiModelName,
        parts := GenPart.text (initialPrompt imageFiles) :: imageParts b64 imageFiles }
    match remote req with
    | Except.error e => (Except.error e, 1)
    | Except.ok txt =>
      match parse txt.trim with
      | Except.error e => (Except.error e, 1)
      | Except.ok r => (Except.ok r, 1)

/-- `analyzeFootImage` from `geminiService.ts`: the `try` body wrapped in the
catch-all handler that replaces every failure by the generic message. -/
def analyzeFootImage (remote : GenAIRequest → Except String String)
    (parse : String → Except String AnalysisResult) (b64 : MFile → String)
    (imageFiles : FootImages) : Except String AnalysisResult × Nat :=
  match analyzeFootImageTry remote parse b64 imageFiles with
  | (Except.ok r, n) => (Except.ok r, n)
  | (Except.error _, n) => (Except.error genericFailureMsg, n)

/-- `handleAnalyzeClick` from `App.tsx`, reduced to its data flow: keep the
populated slots and refuse to start an analysis when none remain.  `none`
models the early return that never invokes `analyzeFootImage`. -/
def handleAnalyzeClick (imageFiles : Slots MFile) : Option FootImages :=
  let imagesToAnalyze : FootImages :=
    { top := imageFiles.top, side := imageFiles.side, back := imageFiles.back }
  if (providedViews imagesToAnalyze).length = 0 then none else some imagesToAnalyze

/-- C3: on an empty ImageSet the analysis fails immediately on the local
validation check with the no-images error, the remote collaborator is
invoked zero times (no request is built or sent), the overall call surfaces
an error, and the caller in `App.tsx` does not even start the analysis. -/
theorem empty_imageset_fails_fast_no_remote
    (remote : GenAIRequest → Except String String)
    (parse : String → Except String AnalysisResult) (b64 : MFile → String)
    (imgs : FootImages) (ht : imgs.top = none) (hs : imgs.side = none)
    (hb : imgs.back = none) :
    analyzeFootImageTry remote parse b64 imgs = (Except.error noImagesMsg, 0) ∧
      (analyzeFootImage remote parse b64 imgs).2 = 0 ∧
      (∃ e, (analyzeFootImage remote parse b64 imgs).1 = Except.error e) ∧
      handleAnalyzeClick Slots.empty = none := by
  have hv : providedViews imgs = [] := by
    simp [providedViews, ht, hs, hb]
  have h1 : analyzeFootImageTry remote parse b64 imgs
      = (Except.error noImagesMsg, 0) := by
    simp [analyzeFootImageTry, hv]
  refine ⟨h1, ?_, ?_, rfl⟩
  · simp [analyzeFootImage, h1]
  · exact ⟨genericFailureMsg, by simp [analyzeFootImage, h1]⟩

/-- A stub remote model that replies with an empty JSON object. -/
def wRemote : GenAIRequest → Except String String := fun _ => Except.ok "{}"

/-- A stub parser that rejects every response body. -/
def wParse : String → Except String AnalysisResult := fun _ => Except.error "parse"

/-- A stub base64 encoder. -/
def wB64 : MFile → String := fun f => f.name

/-- The empty ImageSet. -/
def emptyImages : FootImages := ⟨none, none, none⟩

theorem empty_imageset_fails_fast_no_remote_witness :
    analyzeFootImageTry wRemote wParse wB64 emptyImages
        = (Except.error noImagesMsg, 0) ∧
      (analyzeFootImage wRemote wParse wB64 emptyImages).2 = 0 ∧
      (∃ e, (analyzeFootImage wRemote wParse wB64 emptyImages).1
          = Except.error e) ∧
      handleAnalyzeClick Slots.empty = none :=
  empty_imageset_fails_fast_no_remote wRemote wParse wB64 emptyImages rfl rfl rfl

/-- An ImageSet holding only the side view. -/
def wSideOnly : FootImages := ⟨none, some wFileA, none⟩

/-- A stub remote model that fails with a transport error. -/
def wFailRemote : GenAIRequest → Except String String :=
  fun _ => Except.error "network unreachable"

/-- C4: the no-images validation error is raised inside the `try` block, so
the catch-all handler rewrites it into the same generic message that remote
transport failures produce; the specific validation message never reaches
the caller even though the source constructs it. -/
theorem empty_input_error_not_distinct :
    (analyzeFootImage wRemote wParse wB64 emptyImages).1
        = Except.error genericFailureMsg ∧
      (analyzeFootImage wFailRemote wParse wB64 wSideOnly).1
        = Except.error genericFailureMsg ∧
      noImagesMsg ≠ genericFailureMsg := by
  refine ⟨rfl, rfl, by decide⟩

/-! ### Consultation message (`src/components/TelemedicineModal.tsx`) -/

/-- The placeholder rendered for an empty potential-issues list. -/
def noneDetected : String := "None detected"

/-- The newline separator used by the join calls. -/
def newlineStr : String := "\n"

/-- The bullet marker used for rendered list entries. -/
def bulletStr : String := "• "

/-- One rendered potential-issue line. -/
def issueLine (i : PotentialIssue) : String :=
  bulletStr ++ i.issue ++ " (" ++ i.severity ++ "): " ++ i.description

/-- `formatPotentialIssues` from `TelemedicineModal.tsx`: the placeholder for
a missing or empty list, otherwise one bulleted line per issue. -/
def formatPotentialIssues (issues : Option (List PotentialIssue)) : String :=
  match issues with
  | none => noneDetected
  | some is =>
    if is.length = 0 then noneDetected else joinWith newlineStr (is.map issueLine)

/-- JavaScript `x || &#x27;N/A&#x27;` on a string: the empty string is falsy. -/
def jsOrNA (s : String) : String := if s = "" then "N/A" else s

/-- JavaScript `x || &#x27;N/A&#x27;` applied through optional chaining. -/
def optStrOrNA (x : Option String) : String := jsOrNA (x.getD "")

/-- The bulleted rendering `xs.map(s => "• " + s).join("\n")`. -/
def bulletList (xs : List String) : String :=
  joinWith newlineStr (xs.map (fun s => bulletStr ++ s))

/-- JavaScript `n || &#x27;N/A&#x27;` on an optional number: zero is falsy. -/
def numOrNA (x : Option Int) : String :=
  match x with
  | none => "N/A"
  | some n => if n = 0 then "N/A" else toString n

/-- The literal text before the arch-type value. -/
def summaryHeader : String := "--- AI Analysis Summary ---\n\nArch Type:\n"

/-- The literal text before the potential-issues block. -/
def issuesHeader : String := "\n\nPotential Issues:\n"

/-- The literal text before the AI summary value. -/
def aiSummaryHeader : String := "\n\nAI Summary:\n"

/-- The literal text before the footwear-suggestions block. -/
def footwearHeader : String := "\n\nFootwear Suggestions:\n"

/-- The literal text before the clinical-recommendations block. -/
def clinicalHeader : String := "\n\nClinical Recommendations:\n"

/-- The literal text before the confidence score. -/
def confidenceHeader : String := "\n\nConfidence Score: "

/-- The literal text after the confidence score (percent sign and the
trailing whitespace of the template literal). -/
def percentTail : String := "%\n  "

/-- `analysisSummaryForEmail` from `TelemedicineModal.tsx`: the template
literal rendering the most recent result, with every interpolation passed
through the JavaScript truthiness fallback of the source. -/
def analysisSummaryForEmail (analysisResult : Option AnalysisResult) : String :=
  summaryHeader ++ optStrOrNA (analysisResult.map AnalysisResult.archType)
    ++ issuesHeader
    ++ formatPotentialIssues (analysisResult.map AnalysisResult.potentialIssues)
    ++ aiSummaryHeader ++ optStrOrNA (analysisResult.map AnalysisResult.summary)
    ++ footwearHeader
    ++ optStrOrNA (analysisResult.map (fun r => bulletList r.footwearSuggestions))
    ++ clinicalHeader
    ++ optStrOrNA (analysisResult.map (fun r => bulletList r.clinicalRecommendations))
    ++ confidenceHeader ++ numOrNA (analysisResult.map AnalysisResult.confidenceScore)
    ++ percentTail

theorem joinWith_mem_infix {α : Type} (sep : String) (f : α → String)
    (l : List α) (x : α) (hx : x ∈ l) :
    ∃ a b : String, joinWith sep (l.map f) = a ++ f x ++ b := by
  induction l with
  | nil => cases hx
  | cons y ys ih =>
    rcases List.mem_cons.mp hx with rfl | hx2
    · cases ys with
      | nil => exact ⟨"", "", by simp [joinWith]⟩
      | cons z zs =>
        exact ⟨"", sep ++ joinWith sep ((z :: zs).map f),
          by simp [joinWith, String.append_assoc]⟩
    · obtain ⟨a, b, hab⟩ := ih hx2
      cases ys with
      | nil => cases hx2
      | cons z zs =>
        refine ⟨f y ++ sep ++ a, b, ?_⟩
        show f y ++ sep ++ joinWith sep ((z :: zs).map f) = f y ++ sep ++ a ++ f x ++ b
        rw [hab]
        simp [String.append_assoc]

/-- C9: the consultation message renders the result in the fixed order arch
type, potential issues, summary, footwear suggestions, clinical
recommendations, confidence score; every potential issue contributes the
bulleted line issue (severity): description; and an empty issue list puts
the literal None detected between the issues header and the summary
header. -/
theorem consultation_message_layout (r : AnalysisResult) :
    (∃ a1 a2 a3 a4 a5 a6 : String,
        analysisSummaryForEmail (some r)
          = summaryHeader ++ a1 ++ issuesHeader ++ a2 ++ aiSummaryHeader ++ a3
              ++ footwearHeader ++ a4 ++ clinicalHeader ++ a5
              ++ confidenceHeader ++ a6 ++ percentTail) ∧
      (∀ i ∈ r.potentialIssues,
        ∃ a b : String,
          analysisSummaryForEmail (some r) = a ++ issueLine i ++ b) ∧
      (r.potentialIssues = [] →
        ∃ a b : String,
          analysisSummaryForEmail (some r)
            = a ++ (issuesHeader ++ noneDetected ++ aiSummaryHeader) ++ b) := by
  refine ⟨?_, ?_, ?_⟩
  · exact ⟨optStrOrNA (some r.archType),
      formatPotentialIssues (some r.potentialIssues),
      optStrOrNA (some r.summary),
      optStrOrNA (some (bulletList r.footwearSuggestions)),
      optStrOrNA (some (bulletList r.clinicalRecommendations)),
      numOrNA (some r.confidenceScore),
      by simp [analysisSummaryForEmail, String.append_assoc]⟩
  · intro i hi
    have hne : ¬ (r.potentialIssues.length = 0) := by
      cases hl : r.potentialIssues with
      | nil => rw [hl] at hi; cases hi
      | cons a l => simp
    have hne2 : r.potentialIssues ≠ [] := by
      intro e
      rw [e] at hi
      cases hi
    obtain ⟨a, b, hab⟩ :=
      joinWith_mem_infix newlineStr issueLine r.potentialIssues i hi
    refine ⟨summaryHeader ++ optStrOrNA (some r.archType) ++ issuesHeader ++ a,
      b ++ aiSummaryHeader ++ optStrOrNA (some r.summary) ++ footwearHeader
        ++ optStrOrNA (some (bulletList r.footwearSuggestions)) ++ clinicalHeader
        ++ optStrOrNA (some (bulletList r.clinicalRecommendations))
        ++ confidenceHeader ++ numOrNA (some r.confidenceScore) ++ percentTail, ?_⟩
    simp [analysisSummaryForEmail, formatPotentialIssues, hne, hne2, hab,
      String.append_assoc]
  · intro h0
    refine ⟨summaryHeader ++ optStrOrNA (some r.archType),
      optStrOrNA (some r.summary) ++ footwearHeader
        ++ optStrOrNA (some (bulletList r.footwearSuggestions)) ++ clinicalHeader
        ++ optStrOrNA (some (bulletList r.clinicalRecommendations))
        ++ confidenceHeader ++ numOrNA (some r.confidenceScore) ++ percentTail, ?_⟩
    simp [analysisSummaryForEmail, formatPotentialIssues, h0, String.append_assoc]

/-- A result with one moderate issue, used as a rendering witness. -/
def wIssue : PotentialIssue :=
  { issue := "Bunion", severity := "Moderate", description := "Top view" }

/-- A fully populated analysis result with one issue. -/
def wResult1 : AnalysisResult :=
  { archType := "Flat", potentialIssues := [wIssue], summary := "ok",
    clinicalRecommendations := ["see a podiatrist"],
    footwearSuggestions := ["arch support"], confidenceScore := 90 }

/-- An analysis result with no detected issues. -/
def wResult2 : AnalysisResult :=
  { archType := "Normal", potentialIssues := [], summary := "fine",
    clinicalRecommendations := [], footwearSuggestions := [],
    confidenceScore := 80 }

theorem consultation_message_layout_witness :
    (∃ a b : String,
        analysisSummaryForEmail (some wResult1) = a ++ issueLine wIssue ++ b) ∧
      (∃ a b : String,
        analysisSummaryForEmail (some wResult2)
          = a ++ (issuesHeader ++ noneDetected ++ aiSummaryHeader) ++ b) :=
  ⟨(consultation_message_layout wResult1).2.1 wIssue (by decide),
   (consultation_message_layout wResult2).2.2 rfl⟩

/-- C10: for a present result whose arch type or summary is the empty string
or whose confidence score is zero, the message shows the N/A placeholder in
place of the field value, because each interpolation uses a JavaScript
truthiness fallback rather than a presence test. -/
theorem consultation_truthiness_na (r : AnalysisResult) :
    (r.archType = "" →
      ∃ b : String,
        analysisSummaryForEmail (some r)
          = summaryHeader ++ "N/A" ++ issuesHeader ++ b) ∧
      (r.summary = "" →
        ∃ a b : String,
          analysisSummaryForEmail (some r)
            = a ++ (aiSummaryHeader ++ "N/A" ++ footwearHeader) ++ b) ∧
      (r.confidenceScore = 0 →
        ∃ a : String,
          analysisSummaryForEmail (some r)
            = a ++ (confidenceHeader ++ "N/A" ++ percentTail)) := by
  refine ⟨?_, ?_, ?_⟩
  · intro h
    refine ⟨formatPotentialIssues (some r.potentialIssues) ++ aiSummaryHeader
      ++ optStrOrNA (some r.summary) ++ footwearHeader
      ++ optStrOrNA (some (bulletList r.footwearSuggestions)) ++ clinicalHeader
      ++ optStrOrNA (some (bulletList r.clinicalRecommendations))
      ++ confidenceHeader ++ numOrNA (some r.confidenceScore) ++ percentTail, ?_⟩
    simp [analysisSummaryForEmail, optStrOrNA, jsOrNA, h, String.append_assoc]
  · intro h
    refine ⟨summaryHeader ++ optStrOrNA (some r.archType) ++ issuesHeader
      ++ formatPotentialIssues (some r.potentialIssues),
      optStrOrNA (some (bulletList r.footwearSuggestions)) ++ clinicalHeader
        ++ optStrOrNA (some (bulletList r.clinicalRecommendations))
        ++ confidenceHeader ++ numOrNA (some r.confidenceScore) ++ percentTail, ?_⟩
    simp [analysisSummaryForEmail, optStrOrNA, jsOrNA, h, String.append_assoc]
  · intro h
    refine ⟨summaryHeader ++ optStrOrNA (some r.archType) ++ issuesHeader
      ++ formatPotentialIssues (some r.potentialIssues) ++ aiSummaryHeader
      ++ optStrOrNA (some r.summary) ++ footwearHeader
      ++ optStrOrNA (some (bulletList r.footwearSuggestions)) ++ clinicalHeader
      ++ optStrOrNA (some (bulletList r.clinicalRecommendations)), ?_⟩
    simp [analysisSummaryForEmail, numOrNA, h, String.append_assoc]

/-- A present result whose truthy-tested fields are all falsy. -/
def wResult0 : AnalysisResult :=
  { archType := "", potentialIssues := [], summary := "",
    clinicalRecommendations := [], footwearSuggestions := [],
    confidenceScore := 0 }

theorem consultation_truthiness_na_witness :
    (∃ b : String,
        analysisSummaryForEmail (some wResult0)
          = summaryHeader ++ "N/A" ++ issuesHeader ++ b) ∧
      (∃ a b : String,
        analysisSummaryForEmail (some wResult0)
          = a ++ (aiSummaryHeader ++ "N/A" ++ footwearHeader) ++ b) ∧
      (∃ a : String,
        analysisSummaryForEmail (some wResult0)
          = a ++ (confidenceHeader ++ "N/A" ++ percentTail)) :=
  ⟨(consultation_truthiness_na wResult0).1 rfl,
   (consultation_truthiness_na wResult0).2.1 rfl,
   (consultation_truthiness_na wResult0).2.2 rfl⟩

end SmartStep

